import Mathlib

set_option maxRecDepth 100000

/-!
Shallow embedding of the `aiorocketchat` realtime RPC layer
(`aiorocketchat/response.py`, `aiorocketchat/methods.py`) and proofs about it.

Python values flowing through the layer are JSON-like: we model them with the
inductive `Value`.  Python exceptions become an explicit error type `PyExc`
and fallible Python code returns `Except PyExc _`.  The async transport is
abstracted away: every `call` model takes the response payload the transport
would deliver and performs the same post-processing the Python code does.
-/

/-- JSON-like Python values (dicts keep insertion order, as CPython does). -/
inductive Value where
  | str (s : String)
  | num (n : Int)
  | bool (b : Bool)
  | null
  | list (xs : List Value)
  | obj (fields : List (String × Value))

/-- Python exceptions that can be raised by this layer.
`exception` is the generic builtin `Exception(detail)`;
`rocket` would be one of the `aiorocketchat.exceptions` classes
(`RocketLoginError`, `RocketGetChannelsError`, ...), carried with the
operation it belongs to. -/
inductive RocketExcKind where
  | connectError
  | resumeError
  | loginError
  | getChannelsError
  | sendMessageError
  | sendReactionError
  | sendTypingEventError
  | subscribeToChannelMessagesError
  | subscribeToChannelChangesError
  | unsubscribeError
deriving DecidableEq, Repr

inductive PyExc where
  | attributeError
  | keyError (k : String)
  | typeError
  | indexError
  | exception (detail : Value)
  | rocket (kind : RocketExcKind) (detail : Value)

/-- Ordered-dict lookup, as Python `dict.get` / `dict[k]` observe it. -/
def Value.lookup : List (String × Value) → String → Option Value
  | [], _ => none
  | (k, v) :: rest, key => if k = key then some v else Value.lookup rest key

/-- Python truthiness: the values `bool` considers false. -/
def Value.isFalsy : Value → Bool
  | .str s => s.isEmpty
  | .num n => n == 0
  | .bool b => !b
  | .null => true
  | .list xs => xs.isEmpty
  | .obj fs => fs.isEmpty

/-- `content.get(field, {})`: only mappings have `.get`; anything else raises
`AttributeError` (this is the behaviour of `TransportResponse.get_field`'s
loop body on a non-mapping intermediate). -/
def dictDotGet (content : Value) (field : String) : Except PyExc Value :=
  match content with
  | .obj fs => .ok ((Value.lookup fs field).getD (.obj []))
  | _ => .error .attributeError

/-- `content[key]` on a Python value: `KeyError` on a missing dict key,
`TypeError` when the value is not subscriptable by a string. -/
def subscriptKey (content : Value) (key : String) : Except PyExc Value :=
  match content with
  | .obj fs =>
    match Value.lookup fs key with
    | some v => .ok v
    | none => .error (.keyError key)
  | _ => .error .typeError

/-- `xs[i]` on a Python value for a nonnegative index. -/
def subscriptIdx (v : Value) (i : Nat) : Except PyExc Value :=
  match v with
  | .list xs =>
    match xs.get? i with
    | some x => .ok x
    | none => .error .indexError
  | _ => .error .typeError

/-- The loop of `TransportResponse.get_field` before the final `or None`:
`for field in fields: content = content.get(field, {})`. -/
def rawGet : Value → List String → Except PyExc Value
  | content, [] => .ok content
  | content, f :: rest =>
    match dictDotGet content f with
    | .ok v => rawGet v rest
    | .error e => .error e

/-- `TransportResponse.get_field(*fields)`: walk the path, then normalize the
result with `content or None` (falsy values become Python `None`, modelled as
`Option.none`). -/
def get_field (content : Value) (fields : List String) : Except PyExc (Option Value) :=
  match rawGet content fields with
  | .ok v => .ok (if v.isFalsy then none else some v)
  | .error e => .error e

/-- `TransportResponse.__init__`: `self.content = {} if content is None else content`. -/
def TransportResponse.content (c : Option Value) : Value :=
  c.getD (.obj [])

/-- Holds exactly when the `get_field` walk only ever applies a path segment to
a mapping (missing keys substitute the empty mapping `{}` and continue). -/
def safePath : Value → List String → Bool
  | _, [] => true
  | .obj fs, f :: rest => safePath ((Value.lookup fs f).getD (.obj [])) rest
  | _, _ :: _ => false

/-! ### Byte-level helpers: UTF-8 encoding and hex digests

`password.encode()` and `id_seed.encode()` produce UTF-8 bytes; bytes are
modelled as `Nat`s below 256. -/

def utf8EncodeChar (c : Char) : List Nat :=
  let n := c.toNat
  if n < 0x80 then [n]
  else if n < 0x800 then
    [0xC0 ||| (n >>> 6), 0x80 ||| (n &&& 0x3F)]
  else if n < 0x10000 then
    [0xE0 ||| (n >>> 12), 0x80 ||| ((n >>> 6) &&& 0x3F), 0x80 ||| (n &&& 0x3F)]
  else
    [0xF0 ||| (n >>> 18), 0x80 ||| ((n >>> 12) &&& 0x3F),
     0x80 ||| ((n >>> 6) &&& 0x3F), 0x80 ||| (n &&& 0x3F)]

def utf8Encode (s : String) : List Nat :=
  s.data.flatMap utf8EncodeChar

def hexDigit (n : Nat) : Char :=
  if n < 10 then Char.ofNat (48 + n) else Char.ofNat (87 + n)

/-- Lowercase hex rendering of a byte list, two digits per byte, as
`hashlib`'s `hexdigest()` renders digests. -/
def hexOfBytes : List Nat → List Char
  | [] => []
  | b :: bs => hexDigit (b / 16 % 16) :: hexDigit (b % 16) :: hexOfBytes bs

/-! ### 32-bit word arithmetic -/

def w32 (n : Nat) : Nat := n % 4294967296

def rotl32 (s x : Nat) : Nat := w32 ((x <<< s) ||| (x >>> (32 - s)))

def rotr32 (s x : Nat) : Nat := w32 ((x >>> s) ||| (x <<< (32 - s)))

def toBlocksAux : Nat → List Nat → List (List Nat)
  | _, [] => []
  | 0, _ => []
  | fuel + 1, l => l.take 64 :: toBlocksAux fuel (l.drop 64)

/-- Split a byte stream into 64-byte blocks. -/
def toBlocks (l : List Nat) : List (List Nat) :=
  toBlocksAux l.length l

/-- Pad a message as MD5 and SHA-256 both do: a `0x80` byte, zeros up to
56 mod 64, then the bit length in 8 bytes (`lenBytes` differs per hash). -/
def padTail (len : Nat) (lenBytes : List Nat) : List Nat :=
  0x80 :: List.replicate ((119 - len % 64) % 64) 0 ++ lenBytes

def bytesLE8 (n : Nat) : List Nat :=
  [n % 256, n >>> 8 % 256, n >>> 16 % 256, n >>> 24 % 256,
   n >>> 32 % 256, n >>> 40 % 256, n >>> 48 % 256, n >>> 56 % 256]

def bytesBE8 (n : Nat) : List Nat :=
  [n >>> 56 % 256, n >>> 48 % 256, n >>> 40 % 256, n >>> 32 % 256,
   n >>> 24 % 256, n >>> 16 % 256, n >>> 8 % 256, n % 256]

def wordsLE : List Nat → List Nat
  | b0 :: b1 :: b2 :: b3 :: rest => (b0 ||| (b1 <<< 8) ||| (b2 <<< 16) ||| (b3 <<< 24)) :: wordsLE rest
  | _ => []

def wordsBE : List Nat → List Nat
  | b0 :: b1 :: b2 :: b3 :: rest => ((b0 <<< 24) ||| (b1 <<< 16) ||| (b2 <<< 8) ||| b3) :: wordsBE rest
  | _ => []

def wordBytesLE (w : Nat) : List Nat := [w % 256, w >>> 8 % 256, w >>> 16 % 256, w >>> 24 % 256]

def wordBytesBE (w : Nat) : List Nat := [w >>> 24 % 256, w >>> 16 % 256, w >>> 8 % 256, w % 256]

/-! ### MD5 (RFC 1321), used for `SendMessage` message-id generation -/

def md5K : List Nat :=
  [3614090360, 3905402710, 606105819, 3250441966, 4118548399, 1200080426,
   2821735955, 4249261313, 1770035416, 2336552879, 4294925233, 2304563134,
   1804603682, 4254626195, 2792965006, 1236535329, 4129170786, 3225465664,
   643717713, 3921069994, 3593408605, 38016083, 3634488961, 3889429448,
   568446438, 3275163606, 4107603335, 1163531501, 2850285829, 4243563512,
   1735328473, 2368359562, 4294588738, 2272392833, 1839030562, 4259657740,
   2763975236, 1272893353, 4139469664, 3200236656, 681279174, 3936430074,
   3572445317, 76029189, 3654602809, 3873151461, 530742520, 3299628645,
   4096336452, 1126891415, 2878612391, 4237533241, 1700485571, 2399980690,
   4293915773, 2240044497, 1873313359, 4264355552, 2734768916, 1309151649,
   4149444226, 3174756917, 718787259, 3951481745]

def md5S : List Nat :=
  [7, 12, 17, 22, 7, 12, 17, 22, 7, 12, 17, 22, 7, 12, 17, 22,
   5, 9, 14, 20, 5, 9, 14, 20, 5, 9, 14, 20, 5, 9, 14, 20,
   4, 11, 16, 23, 4, 11, 16, 23, 4, 11, 16, 23, 4, 11, 16, 23,
   6, 10, 15, 21, 6, 10, 15, 21, 6, 10, 15, 21, 6, 10, 15, 21]

def md5F (i b c d : Nat) : Nat :=
  if i < 16 then (b &&& c) ||| ((4294967295 - b) &&& d)
  else if i < 32 then (d &&& b) ||| ((4294967295 - d) &&& c)
  else if i < 48 then b ^^^ c ^^^ d
  else c ^^^ (b ||| (4294967295 - d))

def md5G (i : Nat) : Nat :=
  if i < 16 then i
  else if i < 32 then (5 * i + 1) % 16
  else if i < 48 then (3 * i + 5) % 16
  else (7 * i) % 16

def md5Round (m : List Nat) (st : Nat × Nat × Nat × Nat) (i : Nat) : Nat × Nat × Nat × Nat :=
  let (a, b, c, d) := st
  let f := w32 (md5F i b c d + a + md5K.getD i 0 + m.getD (md5G i) 0)
  (d, w32 (b + rotl32 (md5S.getD i 0) f), b, c)

def md5Block (st : Nat × Nat × Nat × Nat) (block : List Nat) : Nat × Nat × Nat × Nat :=
  let m := wordsLE block
  let (a, b, c, d) := (List.range 64).foldl (md5Round m) st
  let (a0, b0, c0, d0) := st
  (w32 (a0 + a), w32 (b0 + b), w32 (c0 + c), w32 (d0 + d))

def md5Bytes (msg : List Nat) : List Nat :=
  let padded := msg ++ padTail msg.length (bytesLE8 (8 * msg.length))
  let st := (toBlocks padded).foldl md5Block (1732584193, 4023233417, 2562383102, 271733878)
  wordBytesLE st.1 ++ wordBytesLE st.2.1 ++ wordBytesLE st.2.2.1 ++ wordBytesLE st.2.2.2

/-- `hashlib.md5(s.encode()).hexdigest()`. -/
def md5hex (s : String) : String :=
  ⟨hexOfBytes (md5Bytes (utf8Encode s))⟩

/-! ### SHA-256 (FIPS 180-4), used for the `Login` password digest -/

def sha256K : List Nat :=
  [1116352408, 1899447441, 3049323471, 3921009573, 961987163, 1508970993,
   2453635748, 2870763221, 3624381080, 310598401, 607225278, 1426881987,
   1925078388, 2162078206, 2614888103, 3248222580, 3835390401, 4022224774,
   264347078, 604807628, 770255983, 1249150122, 1555081692, 1996064986,
   2554220882, 2821834349, 2952996808, 3210313671, 3336571891, 3584528711,
   113926993, 338241895, 666307205, 773529912, 1294757372, 1396182291,
   1695183700, 1986661051, 2177026350, 2456956037, 2730485921, 2820302411,
   3259730800, 3345764771, 3516065817, 3600352804, 4094571909, 275423344,
   430227734, 506948616, 659060556, 883997877, 958139571, 1322822218,
   1537002063, 1747873779, 1955562222, 2024104815, 2227730452, 2361852424,
   2428436474, 2756734187, 3204031479, 3329325298]

def shaSmallSigma0 (x : Nat) : Nat := rotr32 7 x ^^^ rotr32 18 x ^^^ (x >>> 3)

def shaSmallSigma1 (x : Nat) : Nat := rotr32 17 x ^^^ rotr32 19 x ^^^ (x >>> 10)

def shaBigSigma0 (x : Nat) : Nat := rotr32 2 x ^^^ rotr32 13 x ^^^ rotr32 22 x

def shaBigSigma1 (x : Nat) : Nat := rotr32 6 x ^^^ rotr32 11 x ^^^ rotr32 25 x

/-- Extend the 16 block words to the 64-entry message schedule. -/
def shaSchedule (w : List Nat) : List Nat :=
  (List.range 48).foldl
    (fun acc _ =>
      let n := acc.length
      acc ++ [w32 (shaSmallSigma1 (acc.getD (n - 2) 0) + acc.getD (n - 7) 0 +
                   shaSmallSigma0 (acc.getD (n - 15) 0) + acc.getD (n - 16) 0)])
    w

structure Sha256State where
  a : Nat
  b : Nat
  c : Nat
  d : Nat
  e : Nat
  f : Nat
  g : Nat
  h : Nat

def sha256Round (ws : List Nat) (st : Sha256State) (i : Nat) : Sha256State :=
  let t1 := w32 (st.h + shaBigSigma1 st.e + ((st.e &&& st.f) ^^^ ((4294967295 - st.e) &&& st.g)) +
                 sha256K.getD i 0 + ws.getD i 0)
  let t2 := w32 (shaBigSigma0 st.a + ((st.a &&& st.b) ^^^ (st.a &&& st.c) ^^^ (st.b &&& st.c)))
  ⟨w32 (t1 + t2), st.a, st.b, st.c, w32 (st.d + t1), st.e, st.f, st.g⟩

def sha256Block (st : Sha256State) (block : List Nat) : Sha256State :=
  let ws := shaSchedule (wordsBE block)
  let r := (List.range 64).foldl (sha256Round ws) st
  ⟨w32 (st.a + r.a), w32 (st.b + r.b), w32 (st.c + r.c), w32 (st.d + r.d),
   w32 (st.e + r.e), w32 (st.f + r.f), w32 (st.g + r.g), w32 (st.h + r.h)⟩

def sha256Bytes (msg : List Nat) : List Nat :=
  let padded := msg ++ padTail msg.length (bytesBE8 (8 * msg.length))
  let r := (toBlocks padded).foldl sha256Block
    ⟨1779033703, 3144134277, 1013904242, 2773480762, 1359893119, 2600822924, 528734635, 1541459225⟩
  wordBytesBE r.a ++ wordBytesBE r.b ++ wordBytesBE r.c ++ wordBytesBE r.d ++
  wordBytesBE r.e ++ wordBytesBE r.f ++ wordBytesBE r.g ++ wordBytesBE r.h

/-- `hashlib.sha256(s.encode()).hexdigest()`. -/
def sha256hex (s : String) : String :=
  ⟨hexOfBytes (sha256Bytes (utf8Encode s))⟩

/-! ### The operation classes of `methods.py`

Each concrete subclass of `BaseRealtimeRequest` is one tag of `OpClass`.
The async transport interaction is abstracted away: the `call` models take
the response payload the transport delivers and perform the same
error-check/parse post-processing the Python coroutine does. -/

inductive OpClass where
  | connect
  | resume
  | login
  | getChannels
  | sendMessage
  | sendReaction
  | sendTypingEvent
  | subscribeToChannelMessages
  | subscribeToChannelChanges
  | unsubscribe
deriving DecidableEq, Repr

/-- The `exception_class` attribute each operation class declares
(`Connect.exception_class = RocketConnectError`, ...). -/
def exception_class : OpClass → RocketExcKind
  | .connect => .connectError
  | .resume => .resumeError
  | .login => .loginError
  | .getChannels => .getChannelsError
  | .sendMessage => .sendMessageError
  | .sendReaction => .sendReactionError
  | .sendTypingEvent => .sendTypingEventError
  | .subscribeToChannelMessages => .subscribeToChannelMessagesError
  | .subscribeToChannelChanges => .subscribeToChannelChangesError
  | .unsubscribe => .unsubscribeError

/-! ### `inc_sequence`

`BaseRealtimeRequestAbstract` declares `sequence_counter = 0` once, but
`cls.sequence_counter += 1` is executed with `cls` bound to the concrete
operation class, so the augmented assignment *reads* through the MRO and
*writes* a shadowing attribute into the subclass.  The state is therefore the
base-class value plus one optional shadowing value per concrete class. -/

structure SeqState where
  base : Nat
  shadow : OpClass → Option Nat

def SeqState.init : SeqState := ⟨0, fun _ => none⟩

/-- `cls.sequence_counter += 1; return cls.sequence_counter` executed with
`cls` bound to operation class `c`. -/
def inc_sequence (c : OpClass) (s : SeqState) : Nat × SeqState :=
  let v := ((s.shadow c).getD s.base) + 1
  (v, ⟨s.base, fun c2 => if c2 = c then some v else s.shadow c2⟩)

/-- The ids returned by a sequence of `inc_sequence` calls made through the
given operation classes, in order. -/
def runSeq : List OpClass → SeqState → List Nat
  | [], _ => []
  | c :: rest, s =>
    let (v, s2) := inc_sequence c s
    v :: runSeq rest s2

/-! ### Return values of the Python `call` coroutines -/

inductive PyResult where
  | pyNone
  | baseResponse (id : Option Value)
  | channels (cs : List (Value × Value))
  | raw (v : Value)

/-- `BaseRealtimeRequest.raise_exceptions`: reads `response.get_field("error")`
and, when the result is truthy, executes `raise Exception(error)` — the
generic builtin, not `cls.exception_class`. -/
def raise_exceptions (response : Value) : Except PyExc Unit :=
  match get_field response ["error"] with
  | .ok (some e) => .error (.exception e)
  | .ok none => .ok ()
  | .error e => .error e

/-- `BaseRealtimeRequest.parse_response`:
`BaseResponse(id=response.get_field("result", "id"))`. -/
def BaseRealtimeRequest.parse_response (response : Value) : Except PyExc PyResult :=
  (get_field response ["result", "id"]).map .baseResponse

/-- `BaseRealtimeRequest.call` after the transport delivers `response`:
`cls.raise_exceptions(response); return cls.parse_response(response)`. -/
def BaseRealtimeRequest.call (response : Value) : Except PyExc PyResult := do
  raise_exceptions response
  BaseRealtimeRequest.parse_response response

/-! ### Envelope builders (`get_message`) -/

def Connect.get_message : Value :=
  .obj [("msg", .str "connect"), ("version", .str "1"), ("support", .list [.str "1"])]

def Resume.get_message (msg_id : Nat) (token : String) : Value :=
  .obj [("msg", .str "method"), ("method", .str "login"), ("id", .num msg_id),
        ("params", .list [.obj [("resume", .str token)]])]

def Login.get_message (msg_id : Nat) (username password : String) : Value :=
  let pwd_digest := sha256hex password
  .obj [("msg", .str "method"), ("method", .str "login"), ("id", .num msg_id),
        ("params", .list [.obj [
          ("user", .obj [("username", .str username)]),
          ("password", .obj [("digest", .str pwd_digest), ("algorithm", .str "sha-256")])]])]

def GetChannels.get_message (msg_id : Nat) : Value :=
  .obj [("msg", .str "method"), ("method", .str "rooms/get"), ("id", .num msg_id),
        ("params", .list [])]

/-- `hashlib.md5(f"{msg_id}:{time.time()}".encode()).hexdigest()[:12]`; the
wall clock reading `str(time.time())` is passed in as `now`. -/
def SendMessage.generated_id (msg_id : Nat) (now : String) : String :=
  (md5hex (toString msg_id ++ ":" ++ now)).take 12

def SendMessage.get_message (now : String) (msg_id : Nat)
    (channel_id msg_text : String) (thread_id : Option String) : Value :=
  let params0 :=
    [("_id", Value.str (SendMessage.generated_id msg_id now)),
     ("rid", Value.str channel_id), ("msg", Value.str msg_text)]
  let params0 :=
    match thread_id with
    | none => params0
    | some t => params0 ++ [("tmid", Value.str t)]
  .obj [("msg", .str "method"), ("method", .str "sendMessage"), ("id", .num msg_id),
        ("params", .list [.obj params0])]

def SendReaction.get_message (msg_id : Nat) (orig_msg_id emoji : String) : Value :=
  .obj [("msg", .str "method"), ("method", .str "setReaction"), ("id", .num msg_id),
        ("params", .list [.str emoji, .str orig_msg_id])]

def SendTypingEvent.get_message (msg_id : Nat) (channel_id username : String)
    (is_typing : Bool) : Value :=
  .obj [("msg", .str "method"), ("method", .str "stream-notify-room"), ("id", .num msg_id),
        ("params", .list [.str (channel_id ++ "/typing"), .str username, .bool is_typing])]

def SubscribeToChannelMessages.get_message (msg_id : Nat) (channel_id : String) : Value :=
  .obj [("msg", .str "sub"), ("id", .num msg_id), ("name", .str "stream-room-messages"),
        ("params", .list [.str channel_id,
                          .obj [("useCollection", .bool false), ("args", .list [])]])]

def SubscribeToChannelChanges.get_message (msg_id : Nat) (user_id : String) : Value :=
  .obj [("msg", .str "sub"), ("id", .num msg_id), ("name", .str "stream-notify-user"),
        ("params", .list [.str (user_id ++ "/rooms-changed"), .bool false])]

def Unsubscribe.get_message (subscription_id : Value) : Value :=
  .obj [("msg", .str "unsub"), ("id", subscription_id)]

/-! ### `call` models (post-transport response processing) -/

/-- `Connect.call` returns `await transport.call_method(...)` directly:
no error check, no parsing. -/
def Connect.call (response : Value) : Except PyExc PyResult :=
  .ok (.raw response)

/-- `Resume.call` is inherited from `BaseRealtimeRequest`. -/
def Resume.call (response : Value) : Except PyExc PyResult :=
  BaseRealtimeRequest.call response

/-- `Login.call` is inherited from `BaseRealtimeRequest`. -/
def Login.call (response : Value) : Except PyExc PyResult :=
  BaseRealtimeRequest.call response

/-- Python `for x in v` over a value: lists yield elements, dicts yield keys,
strings yield one-character strings, everything else raises `TypeError`. -/
def pyIter : Value → Except PyExc (List Value)
  | .list xs => .ok xs
  | .obj fs => .ok (fs.map fun kv => .str kv.1)
  | .str s => .ok (s.data.map fun c => .str ⟨[c]⟩)
  | _ => .error .typeError

/-- `GetChannels.parse_response`:
`[Channel(id=r["_id"], type=r["t"]) for r in response.content["result"]]` —
direct subscripting, not `get_field`. -/
def GetChannels.parse_response (response : Value) : Except PyExc (List (Value × Value)) := do
  let result ← subscriptKey response "result"
  let items ← pyIter result
  items.mapM fun r => do
    let i ← subscriptKey r "_id"
    let t ← subscriptKey r "t"
    pure (i, t)

/-- `GetChannels.call` override: parses without ever calling
`raise_exceptions`. -/
def GetChannels.call (response : Value) : Except PyExc PyResult :=
  (GetChannels.parse_response response).map .channels

/-- `SendMessage.call` override: awaits the transport and returns `None`
without checking for errors or parsing the response. -/
def SendMessage.call (_response : Value) : Except PyExc PyResult :=
  .ok .pyNone

/-- `SendReaction.call` override: awaits the transport and returns `None`. -/
def SendReaction.call (_response : Value) : Except PyExc PyResult :=
  .ok .pyNone

/-- `SendTypingEvent.call` override: awaits the transport and returns `None`. -/
def SendTypingEvent.call (_response : Value) : Except PyExc PyResult :=
  .ok .pyNone

/-- `Unsubscribe.call` override: returns the transport result directly,
without error check or parsing. -/
def Unsubscribe.call (response : Value) : Except PyExc PyResult :=
  .ok (.raw response)

/-! ### Subscription push-frame unwrapping -/

/-- Python `v == "removed"`: true only for the equal string. -/
def pyEqStr (v : Value) (s : String) : Bool :=
  match v with
  | .str t => t == s
  | _ => false

/-- `event.get(key)` (no default): `None` when the key is missing,
`AttributeError` when `event` is not a mapping. -/
def dictGetNone (content : Value) (key : String) : Except PyExc Value :=
  match content with
  | .obj fs => .ok ((Value.lookup fs key).getD .null)
  | _ => .error .attributeError

/-- The function `SubscribeToChannelChanges._wrap(callback)` returns, as a
transformation from the push frame to the callback invocation:
`ok none` means the callback was not invoked, `ok (some (cid, ct))` means it
was invoked exactly once with these arguments. -/
def SubscribeToChannelChanges.wrapped (msg : Value) : Except PyExc (Option (Value × Value)) := do
  let fields ← subscriptKey msg "fields"
  let payload ← subscriptKey fields "args"
  let first ← subscriptIdx payload 0
  if pyEqStr first "removed" then
    pure none
  else do
    let second ← subscriptIdx payload 1
    let channel_id ← subscriptKey second "_id"
    let channel_type ← subscriptKey second "t"
    pure (some (channel_id, channel_type))

/-- The prefix of the walk `SubscribeToChannelChanges.wrapped` performs up to
`msg["fields"]["args"][0]`. -/
def firstPushArg (msg : Value) : Except PyExc Value := do
  let fields ← subscriptKey msg "fields"
  let payload ← subscriptKey fields "args"
  subscriptIdx payload 0

/-- The function `SubscribeToChannelMessages._wrap(callback)` returns, giving
the callback arguments `(channel_id, sender_id, msg_id, thread_id, msg,
qualifier)` (`null` models Python `None` from `.get`). -/
def SubscribeToChannelMessages.wrapped (msg : Value) :
    Except PyExc (Value × Value × Value × Value × Value × Value) := do
  let fields ← subscriptKey msg "fields"
  let args ← subscriptKey fields "args"
  let event ← subscriptIdx args 0
  let mid ← subscriptKey event "_id"
  let channel_id ← subscriptKey event "rid"
  let thread_id ← dictGetNone event "tmid"
  let u ← subscriptKey event "u"
  let sender_id ← subscriptKey u "_id"
  let text ← subscriptKey event "msg"
  let qualifier ← dictGetNone event "t"
  pure (channel_id, sender_id, mid, thread_id, text, qualifier)

/-! ### Remaining definitions used by the theorems -/

mutual

/-- `True` iff the string `s` occurs somewhere in the value: as a string
leaf or as a dictionary key. -/
def occursIn (s : String) : Value → Bool
  | .str t => t == s
  | .num _ => false
  | .bool _ => false
  | .null => false
  | .list xs => occursInList s xs
  | .obj fs => occursInFields s fs

def occursInList (s : String) : List Value → Bool
  | [] => false
  | v :: rest => occursIn s v || occursInList s rest

def occursInFields (s : String) : List (String × Value) → Bool
  | [] => false
  | (k, v) :: rest => k == s || occursIn s v || occursInFields s rest

end

/-- `env["params"][0]`: the first positional parameter of an envelope. -/
def firstParam (env : Value) : Except PyExc Value := do
  let ps ← subscriptKey env "params"
  subscriptIdx ps 0

/-- `env["params"][0][key]`. -/
def paramField (env : Value) (key : String) : Except PyExc Value := do
  let p0 ← firstParam env
  subscriptKey p0 key

/-- `env["params"][0]["password"][key]` — reads the password sub-object of a
login envelope. -/
def passwordField (env : Value) (key : String) : Except PyExc Value := do
  let pw ← paramField env "password"
  subscriptKey pw key

/-! ## Supporting lemmas -/

theorem length_hexOfBytes (bs : List Nat) : (hexOfBytes bs).length = 2 * bs.length := by
  induction bs with
  | nil => rfl
  | cons b bs ih => simp [hexOfBytes, ih]; ring

theorem md5_test_empty : md5hex "" = "d41d8cd98f00b204e9800998ecf8427e" := by rfl

theorem md5_test_abc : md5hex "abc" = "900150983cd24fb0d6963f7d28e17f72" := by rfl

theorem sha256_test_empty :
    sha256hex "" = "e3b0c44298fc1c149afbf4c8996fb92427ae41e4649b934ca495991b7852b855" := by rfl

theorem sha256_test_abc :
    sha256hex "abc" = "ba7816bf8f01cfea414140de5dae2223b00361a396177a9cb410ff61f20015ad" := by rfl

theorem rawGet_empty_obj (fields : List String) : rawGet (.obj []) fields = .ok (.obj []) := by
  induction fields with
  | nil => rfl
  | cons f rest ih => simpa [rawGet, dictDotGet, Value.lookup] using ih

theorem rawGet_safePath (content : Value) (fields : List String)
    (h : safePath content fields = true) : ∃ v, rawGet content fields = .ok v := by
  induction fields generalizing content with
  | nil => exact ⟨content, rfl⟩
  | cons f rest ih =>
    cases content with
    | obj fs =>
      obtain ⟨v, hv⟩ := ih _ (by simpa [safePath] using h)
      exact ⟨v, by simp [rawGet, dictDotGet, hv]⟩
    | str s => simp [safePath] at h
    | num n => simp [safePath] at h
    | bool b => simp [safePath] at h
    | null => simp [safePath] at h
    | list xs => simp [safePath] at h

theorem raise_ok_of_no_error (resp : Value) (h : get_field resp ["error"] = .ok none) :
    raise_exceptions resp = .ok () := by
  simp [raise_exceptions, h]

/-! ## The claims -/

/-- C2: the spec describes a single process-wide counter whose returned ids
are all distinct, but `cls.sequence_counter += 1` shadows the counter on each
concrete operation class: from a fresh state, `Login.inc_sequence()` followed
by `SendMessage.inc_sequence()` returns 1 both times, while repeated calls
through one class do increase strictly. -/
theorem C2_sequence_counter_shadowed :
    runSeq [.login, .sendMessage] SeqState.init = [1, 1] ∧
    runSeq [.login, .login, .login] SeqState.init = [1, 2, 3] := ⟨rfl, rfl⟩

/-- C10: `TransportResponse(None)` normalizes the payload to the empty
mapping, and `get_field` on it returns `None` for every path, never raising. -/
theorem C10_none_content_safe :
    TransportResponse.content none = .obj [] ∧
    ∀ fields : List String, get_field (TransportResponse.content none) fields = .ok none := by
  refine ⟨rfl, fun fields => ?_⟩
  simp [TransportResponse.content, get_field, rawGet_empty_obj fields, Value.isFalsy]

/-- C6: `get_field` on `{"result": {"id": "123"}}` with path
`["result", "id"]` returns `"123"`; with a missing final key it returns
absent; and whenever the walk reaches a falsy terminal value, the result is
normalized to absent. -/
theorem C6_get_field_values :
    get_field (.obj [("result", .obj [("id", .str "123")])]) ["result", "id"]
      = .ok (some (.str "123")) ∧
    get_field (.obj [("result", .obj [("id", .str "123")])]) ["result", "missing"]
      = .ok none ∧
    ∀ (p : Value) (path : List String) (v : Value),
      rawGet p path = .ok v → v.isFalsy = true → get_field p path = .ok none := by
  refine ⟨rfl, rfl, fun p path v hv hf => ?_⟩
  simp [get_field, hv, hf]

/-- C6 witness: a present-but-falsy terminal (the empty string) is
normalized to absent. -/
theorem C6_witness : get_field (.obj [("a", .str "")]) ["a"] = .ok none :=
  C6_get_field_values.2.2 (.obj [("a", .str "")]) ["a"] (.str "") rfl rfl

/-- C4 counterexample: the claim says `get_field` is total on every payload
and path, but a present non-mapping intermediate raises `AttributeError`
(`"oops".get` does not exist). -/
theorem C4_counterexample :
    get_field (.obj [("result", .str "oops")]) ["result", "id"] = .error .attributeError := rfl

/-- C4 as amended: `get_field` is total on every path whose traversal only
applies segments to mappings (missing keys substitute an empty mapping and
yield absent); a present non-mapping intermediate raises `AttributeError`. -/
theorem C4_total_on_safe_paths (content : Value) (fields : List String)
    (h : safePath content fields = true) : ∃ r, get_field content fields = .ok r := by
  obtain ⟨v, hv⟩ := rawGet_safePath content fields h
  exact ⟨if v.isFalsy then none else some v, by simp [get_field, hv]⟩

/-- C4 witness: a path through a missing intermediate key never raises. -/
theorem C4_witness :
    ∃ r, get_field (.obj [("user", .obj [("profile", .obj [("name", .str "John")])])])
      ["user", "address", "city"] = .ok r :=
  C4_total_on_safe_paths _ _ (by rfl)

/-- C1: the claim says every call-style operation raises its own distinct
error kind on an `error` response and never completes successfully.  In the
code, `raise_exceptions` raises the generic builtin `Exception(error)` (the
declared `exception_class` is never used), and the `call` overrides of
`GetChannels`, `SendMessage`, `SendReaction`, `SendTypingEvent`, `Connect`
and `Unsubscribe` never check for an `error` field at all — several complete
successfully on an error response. -/
theorem C1_error_mapping_broken :
    Login.call (.obj [("error", .str "bad credentials")])
      = .error (.exception (.str "bad credentials")) ∧
    (PyExc.exception (.str "bad credentials")
      ≠ .rocket (exception_class .login) (.str "bad credentials")) ∧
    GetChannels.call (.obj [("error", .str "boom"), ("result", .list [])])
      = .ok (.channels []) ∧
    SendMessage.call (.obj [("error", .str "boom")]) = .ok .pyNone ∧
    SendReaction.call (.obj [("error", .str "boom")]) = .ok .pyNone ∧
    SendTypingEvent.call (.obj [("error", .str "boom")]) = .ok .pyNone ∧
    Unsubscribe.call (.obj [("error", .str "boom")])
      = .ok (.raw (.obj [("error", .str "boom")])) := by
  refine ⟨rfl, fun h => ?_, rfl, rfl, rfl, rfl, rfl⟩
  exact PyExc.noConfusion h

/-- Shared helper: the inherited `BaseRealtimeRequest.call` on an error-free
response whose `result.id` walk succeeds returns the normalized id. -/
theorem base_call_ok (resp v : Value) (herr : get_field resp ["error"] = .ok none)
    (hraw : rawGet resp ["result", "id"] = .ok v) :
    BaseRealtimeRequest.call resp
      = .ok (.baseResponse (if v.isFalsy then none else some v)) := by
  have hr : raise_exceptions resp = .ok () := raise_ok_of_no_error resp herr
  have hp : BaseRealtimeRequest.parse_response resp
      = .ok (.baseResponse (if v.isFalsy then none else some v)) := by
    simp [BaseRealtimeRequest.parse_response, get_field, hraw, Except.map]
  simp [BaseRealtimeRequest.call, hr, hp, Bind.bind, Except.bind]

/-- C3 counterexample: `SendMessage.call` does not return a parsed result
record on a successful response — its override discards the response and
returns `None`. -/
theorem C3_counterexample :
    SendMessage.call (.obj [("result", .obj [("id", .str "123")])]) = .ok .pyNone ∧
    (Except.ok PyResult.pyNone : Except PyExc PyResult)
      ≠ .ok (.baseResponse (some (.str "123"))) := by
  refine ⟨rfl, fun h => ?_⟩
  exact PyResult.noConfusion (Except.ok.inj h)

/-- C3 as amended: `Resume` and `Login` (which inherit the base `call`)
return a `BaseResponse` whose id is the `result.id` value when it is present
and truthy, and `None` when it is missing or falsy; `SendMessage`,
`SendReaction` and `SendTypingEvent` complete successfully but return no
parsed record — their `call` overrides discard the response, even though
their inherited `parse_response` would extract `result.id`. -/
theorem C3_result_id_parsing :
    (∀ (resp v : Value), get_field resp ["error"] = .ok none →
       rawGet resp ["result", "id"] = .ok v →
       Resume.call resp = .ok (.baseResponse (if v.isFalsy then none else some v)) ∧
       Login.call resp = .ok (.baseResponse (if v.isFalsy then none else some v))) ∧
    (∀ resp : Value,
       SendMessage.call resp = .ok .pyNone ∧
       SendReaction.call resp = .ok .pyNone ∧
       SendTypingEvent.call resp = .ok .pyNone ∧
       BaseRealtimeRequest.parse_response (.obj [("result", .obj [("id", .str "123")])])
         = .ok (.baseResponse (some (.str "123")))) := by
  constructor
  · intro resp v herr hraw
    exact ⟨base_call_ok resp v herr hraw, base_call_ok resp v herr hraw⟩
  · intro resp
    exact ⟨rfl, rfl, rfl, rfl⟩

/-- C3 witness: a concrete successful login response. -/
theorem C3_witness :
    Resume.call (.obj [("result", .obj [("id", .str "123")])])
      = .ok (.baseResponse (some (.str "123"))) ∧
    SendMessage.call (.obj [("result", .obj [("id", .str "123")])]) = .ok .pyNone :=
  ⟨(C3_result_id_parsing.1 (.obj [("result", .obj [("id", .str "123")])])
      (.str "123") rfl rfl).1,
   (C3_result_id_parsing.2 (.obj [("result", .obj [("id", .str "123")])])).1⟩

/-- C5 counterexample: the claim says a response lacking expected fields never
makes an operation fail, but `GetChannels.parse_response` subscripts
`response.content["result"]` directly: on an empty response the call raises
`KeyError("result")`. -/
theorem C5_counterexample :
    GetChannels.call (.obj []) = .error (.keyError "result") := rfl

/-- C5 as amended: the operations that parse through `get_field` (`Resume`
and `Login`) treat absent fields as absent values and succeed on any
error-free response whose field walk stays inside mappings; `GetChannels`,
whose parser subscripts `result` / `_id` / `t` directly, raises `KeyError`
when they are missing; and only `Resume` and `Login` inspect the `error`
field at all. -/
theorem C5_missing_fields :
    (∀ resp : Value, get_field resp ["error"] = .ok none →
       safePath resp ["result", "id"] = true →
       ∃ id1, Resume.call resp = .ok (.baseResponse id1) ∧
              Login.call resp = .ok (.baseResponse id1)) ∧
    GetChannels.call (.obj []) = .error (.keyError "result") ∧
    GetChannels.call (.obj [("result", .list [.obj [("t", .str "c")]])])
      = .error (.keyError "_id") := by
  refine ⟨fun resp herr hsafe => ?_, rfl, rfl⟩
  obtain ⟨v, hv⟩ := rawGet_safePath resp ["result", "id"] hsafe
  exact ⟨_, base_call_ok resp v herr hv, base_call_ok resp v herr hv⟩

/-- C5 witness: a response with no `result` at all still succeeds for
`Login`, with an absent id. -/
theorem C5_witness :
    ∃ id1, Resume.call (.obj [("x", .str "y")]) = .ok (.baseResponse id1) ∧
           Login.call (.obj [("x", .str "y")]) = .ok (.baseResponse id1) :=
  C5_missing_fields.1 (.obj [("x", .str "y")]) rfl rfl

theorem md5Bytes_length (msg : List Nat) : (md5Bytes msg).length = 16 := by
  simp [md5Bytes, wordBytesLE]

theorem md5hex_length (s : String) : (md5hex s).length = 32 := by
  show (hexOfBytes (md5Bytes (utf8Encode s))).length = 32
  rw [length_hexOfBytes, md5Bytes_length]

theorem generated_id_length (mid : Nat) (now : String) :
    (SendMessage.generated_id mid now).length = 12 := by
  unfold SendMessage.generated_id
  rw [String.take_eq]
  show ((md5hex (toString mid ++ ":" ++ now)).data.take 12).length = 12
  have h32 : (md5hex (toString mid ++ ":" ++ now)).data.length = 32 :=
    md5hex_length (toString mid ++ ":" ++ now)
  simp [List.length_take, h32]

/-- C7: the `Login` envelope embeds `sha256(password)` as hex digest with
algorithm tag `"sha-256"` and the raw username, and the plaintext password
does not occur anywhere in the envelope (provided the password does not
coincide with the username, its own digest, or one of the envelope's fixed
literal strings). -/
theorem C7_login_digest (mid : Nat) (u p : String)
    (h1 : u ≠ p) (h2 : sha256hex p ≠ p)
    (h3 : ∀ s ∈ (["msg", "method", "login", "id", "params", "user", "username",
                  "password", "digest", "algorithm", "sha-256"] : List String), s ≠ p) :
    passwordField (Login.get_message mid u p) "digest" = .ok (.str (sha256hex p)) ∧
    passwordField (Login.get_message mid u p) "algorithm" = .ok (.str "sha-256") ∧
    paramField (Login.get_message mid u p) "user" = .ok (.obj [("username", .str u)]) ∧
    occursIn p (Login.get_message mid u p) = false := by
  refine ⟨rfl, rfl, rfl, ?_⟩
  simp only [List.mem_cons, List.not_mem_nil, or_false, forall_eq_or_imp, forall_eq] at h3
  simp [Login.get_message, occursIn, occursInFields, occursInList, beq_eq_false_iff_ne]
  tauto

/-- C7 witness: concrete credentials. -/
theorem C7_witness :
    passwordField (Login.get_message 1 "user" "pass") "digest"
      = .ok (.str (sha256hex "pass")) ∧
    passwordField (Login.get_message 1 "user" "pass") "algorithm"
      = .ok (.str "sha-256") ∧
    paramField (Login.get_message 1 "user" "pass") "user"
      = .ok (.obj [("username", .str "user")]) ∧
    occursIn "pass" (Login.get_message 1 "user" "pass") = false :=
  C7_login_digest 1 "user" "pass" (by decide) (by decide) (by decide)

/-- C8: in the `SendMessage` envelope, `rid` is the channel id, `msg` is the
text, `tmid` is present exactly when a thread id was supplied, and the
generated `_id` is the 12-character prefix of the MD5 hex digest of
`"{msg_id}:{timestamp}"` — a deterministic function of the correlation id
and the wall-clock reading. -/
theorem C8_send_message_envelope (mid : Nat) (now cid text : String) (tid : Option String) :
    paramField (SendMessage.get_message now mid cid text tid) "rid" = .ok (.str cid) ∧
    paramField (SendMessage.get_message now mid cid text tid) "msg" = .ok (.str text) ∧
    paramField (SendMessage.get_message now mid cid text tid) "tmid"
      = (match tid with
         | some t => .ok (.str t)
         | none => .error (.keyError "tmid")) ∧
    paramField (SendMessage.get_message now mid cid text tid) "_id"
      = .ok (.str (SendMessage.generated_id mid now)) ∧
    SendMessage.generated_id mid now = (md5hex (toString mid ++ ":" ++ now)).take 12 ∧
    (SendMessage.generated_id mid now).length = 12 := by
  refine ⟨?_, ?_, ?_, ?_, rfl, generated_id_length mid now⟩
  all_goals cases tid <;> rfl

/-- C9: the `SubscribeToChannelChanges` unwrap function never invokes the
callback when the push frame's first `fields.args` element is the string
`"removed"`; when the first element is anything else and the second element
carries `_id` and `t`, the callback is invoked exactly once with that pair. -/
theorem C9_channel_changes_unwrap :
    (∀ msg : Value, firstPushArg msg = .ok (.str "removed") →
       SubscribeToChannelChanges.wrapped msg = .ok none) ∧
    (∀ (msg fields payload first second cid ct : Value),
       subscriptKey msg "fields" = .ok fields →
       subscriptKey fields "args" = .ok payload →
       subscriptIdx payload 0 = .ok first →
       pyEqStr first "removed" = false →
       subscriptIdx payload 1 = .ok second →
       subscriptKey second "_id" = .ok cid →
       subscriptKey second "t" = .ok ct →
       SubscribeToChannelChanges.wrapped msg = .ok (some (cid, ct))) := by
  constructor
  · intro msg h
    cases hf : subscriptKey msg "fields" with
    | error e => simp [firstPushArg, hf, Bind.bind, Except.bind] at h
    | ok fields =>
      cases ha : subscriptKey fields "args" with
      | error e => simp [firstPushArg, hf, ha, Bind.bind, Except.bind] at h
      | ok payload =>
        cases h0 : subscriptIdx payload 0 with
        | error e => simp [firstPushArg, hf, ha, h0, Bind.bind, Except.bind] at h
        | ok first =>
          simp [firstPushArg, hf, ha, h0, Bind.bind, Except.bind] at h
          subst h
          simp [SubscribeToChannelChanges.wrapped, hf, ha, h0, pyEqStr,
                Bind.bind, Except.bind, Pure.pure, Except.pure]
  · intro msg fields payload first second cid ct hf ha h0 hrm h1 hid ht
    simp [SubscribeToChannelChanges.wrapped, hf, ha, h0, hrm, h1, hid, ht,
          Bind.bind, Except.bind, Pure.pure, Except.pure]

/-- C9 witness: the two concrete push frames from the spec. -/
theorem C9_witness :
    SubscribeToChannelChanges.wrapped
      (.obj [("fields", .obj [("args",
        .list [.str "removed", .obj [("_id", .str "c1"), ("t", .str "channel")]])])])
      = .ok none ∧
    SubscribeToChannelChanges.wrapped
      (.obj [("fields", .obj [("args",
        .list [.str "added", .obj [("_id", .str "c1"), ("t", .str "channel")]])])])
      = .ok (some (.str "c1", .str "channel")) :=
  ⟨C9_channel_changes_unwrap.1 _ rfl,
   C9_channel_changes_unwrap.2 _ _ _ _ _ _ _ rfl rfl rfl rfl rfl rfl rfl⟩
